import Mathlib

/-!
Shallow embedding of `src/frontend/src/components/VideoUploadForm.jsx`.

The component keeps its form state in React `useState` hooks plus one
`useRef` boolean (`uploadInProgress`).  We model that state as a record,
the `handleUpload` event handler as a pure function from the state and
the (awaited) outcome of `uploadVideo` to a new state together with a
flag recording whether `uploadVideo` was actually invoked, and the
2-second `setInterval` poll created by the `useEffect` as a small timer
system: each timer fire issues one `getTaskStatus` query (logged), the
callback may `clearInterval`, and the effect cleanup clears the interval
unconditionally.

JavaScript truthiness (`a || b`) on strings and numbers is modelled by
explicit helpers `jsOrS` / `jsOrN` (the empty string and `0` are falsy;
an absent field is `none`).  Localized strings `t(key, default)` are
modelled by their default English texts, which is faithful for every
property proved here (the claims only compare messages for identity,
emptiness, or substring containment of server-supplied text).
-/

namespace VideoUploadForm

/-- JavaScript `a || b` where `a` is a possibly-absent string field
(`undefined` and `""` are both falsy). -/
def jsOrS (a : Option String) (b : String) : String :=
  match a with
  | some s => if s = "" then b else s
  | none => b

/-- JavaScript `a || b` where `a` is a possibly-absent number field
(`undefined` and `0` are both falsy). -/
def jsOrN (a : Option Nat) (b : Nat) : Nat :=
  match a with
  | some n => if n = 0 then b else n
  | none => b

/-- The selected file; only its size is consulted by the handler. -/
structure FileDesc where
  size : Nat
  deriving Repr, DecidableEq

/-- An axios-style error response: `err.response.status` and
`err.response.data?.detail`. -/
structure ErrResponse where
  status : Nat
  detail : Option String
  deriving Repr, DecidableEq

/-- The component state: the `useState` hooks plus the
`uploadInProgress` ref of `VideoUploadForm`. -/
structure FormState where
  file : Option FileDesc
  name : String
  description : String
  taskId : String
  progress : Nat
  statusText : String
  error : String
  uploadWarning : String
  uploadProgress : Nat
  uploadInProgress : Bool
  deriving Repr, DecidableEq

/-- The initial state set by the `useState` initializers. -/
def initState : FormState :=
  { file := none, name := "", description := "", taskId := "", progress := 0,
    statusText := "", error := "", uploadWarning := "", uploadProgress := 0,
    uploadInProgress := false }

/-- Default text of `t("pleaseSelectFile", ...)`. -/
def pleaseSelectFileMsg : String := "Please select a video file."

/-- Default text of `t("fileTooLarge", ...)` in the local size check. -/
def fileTooLargeMsg : String := "File size exceeds the maximum allowed (15 GB)."

/-- Default text of `t("uploadInProgress", ...)`. -/
def uploadBusyMsg : String := "Upload already in progress, please wait."

/-- Default text of `t("startingUpload", ...)`. -/
def startingUploadMsg : String := "Starting upload..."

/-- Default text of `t("processingVideo", ...)`. -/
def processingVideoMsg : String := "Processing video..."

/-- Default text of `t("noSpaceLeft", ...)`, surfaced on HTTP 507. -/
def noSpaceLeftMsg : String :=
  "Server disk space is full. Please try again later or contact administrator."

/-- Default text of `t("fileTooLarge", ...)` in the HTTP 413 branch. -/
def server413Msg : String := "File size is too large for server to process."

/-- Default text of `t("uploadFailed", ...)`. -/
def uploadFailedMsg : String := "Upload failed."

/-- Default text of `t("processingFailed", ...)`. -/
def processingFailedMsg : String := "Processing failed"

/-- Default text of `t("statusCheckFailed", ...)`. -/
def statusCheckFailedMsg : String := "Failed to check upload status."

/-- The client-side size bound: `15 * 1024 * 1024 * 1024` bytes. -/
def maxUploadBytes : Nat := 15 * 1024 * 1024 * 1024

/-- Outcome of `await uploadVideo(...)`: either a resolved value with a
`task_id`, or a thrown error carrying an optional HTTP response and an
`err.message` string. -/
inductive UploadOutcome where
  | ok (task_id : String)
  | err (response : Option ErrResponse) (message : String)
  deriving Repr, DecidableEq

/-- The error message computed by the `catch` block of `handleUpload`:
`err.response?.status === 507` and `=== 413` get fixed texts, otherwise
`err.response?.data?.detail || err.message || t("uploadFailed", ...)`. -/
def uploadCatchMsg (response : Option ErrResponse) (message : String) : String :=
  match response with
  | some r =>
    if r.status = 507 then noSpaceLeftMsg
    else if r.status = 413 then server413Msg
    else jsOrS r.detail (jsOrS (some message) uploadFailedMsg)
  | none => jsOrS (some message) uploadFailedMsg

/-- The `handleUpload` handler.  Returns the new state and `true` iff
`uploadVideo` was invoked (a network call was made).  Mirrors the
source: missing-file check, 15 GiB size check, `uploadInProgress` busy
guard, then the awaited `uploadVideo` call with its `catch` block. -/
def handleUpload (s : FormState) (outcome : UploadOutcome) : FormState × Bool :=
  match s.file with
  | none => ({ s with error := pleaseSelectFileMsg }, false)
  | some f =>
    if f.size > 15 * 1024 * 1024 * 1024 then
      ({ s with error := fileTooLargeMsg }, false)
    else if s.uploadInProgress then
      ({ s with uploadWarning := uploadBusyMsg }, false)
    else
      let s1 := { s with uploadInProgress := true, statusText := startingUploadMsg, progress := 0, uploadProgress := 0 }
      match outcome with
      | .ok tid => ({ s1 with taskId := tid, statusText := processingVideoMsg }, true)
      | .err resp msg =>
        ({ s1 with uploadInProgress := false, error := uploadCatchMsg resp msg }, true)

/-- The `disabled` condition of the submit button:
`uploadInProgress.current || !file || !name`. -/
def submitDisabled (s : FormState) : Bool :=
  s.uploadInProgress || s.file.isNone || (s.name == "")

/-- A decoded `getTaskStatus` response body; every field may be absent. -/
structure TaskStatus where
  status : Option String
  progress : Option Nat
  current_operation : Option String
  error : Option String
  deriving Repr, DecidableEq

/-- Outcome of one `await getTaskStatus(taskId)`: a decoded response, or
a thrown error (network or decode) with optional HTTP response and
`err.message`. -/
inductive PollOutcome where
  | ok (resp : TaskStatus)
  | err (response : Option ErrResponse) (message : String)
  deriving Repr, DecidableEq

/-- The error message computed by the poll callback's `catch` block:
`err.response?.data?.detail || err.message || t("statusCheckFailed", ...)`. -/
def pollCatchMsg (response : Option ErrResponse) (message : String) : String :=
  match response with
  | some r => jsOrS r.detail (jsOrS (some message) statusCheckFailedMsg)
  | none => jsOrS (some message) statusCheckFailedMsg

/-- Body of the interval callback in the `useEffect`.  Returns the new
form state and `true` iff the interval is kept (no `clearInterval`). -/
def pollBody (s : FormState) (r : PollOutcome) : FormState × Bool :=
  match r with
  | .ok resp =>
    let s1 := { s with progress := jsOrN resp.progress 0, statusText := jsOrS resp.current_operation "" }
    if resp.status = some "completed" then
      ({ s1 with uploadInProgress := false }, false)
    else if resp.status = some "failed" then
      ({ s1 with uploadInProgress := false, error := processingFailedMsg ++ ": " ++ jsOrS resp.error "" }, false)
    else
      (s1, true)
  | .err resp msg =>
    ({ s with uploadInProgress := false, error := pollCatchMsg resp msg }, false)

/-- The poller as a timer system: `active` is whether the interval is
still installed, `queried` logs every task identifier sent to
`getTaskStatus`, `form` is the component state. -/
structure PollSystem where
  active : Bool
  queried : List String
  form : FormState
  deriving Repr, DecidableEq

/-- The `useEffect` body: an interval is installed only when `taskId` is
truthy (non-empty). -/
def effectSetup (taskId : String) (s : FormState) : PollSystem :=
  { active := taskId ≠ "", queried := [], form := s }

/-- One firing of the `setInterval` timer for `taskId`: if the interval
is still installed the callback runs (issuing one `getTaskStatus` query
against `taskId`, then processing its outcome); a cleared interval never
fires. -/
def timerFire (taskId : String) (sys : PollSystem) (r : PollOutcome) : PollSystem :=
  if sys.active then
    let p := pollBody sys.form r
    { active := p.2, queried := sys.queried ++ [taskId], form := p.1 }
  else sys

/-- A sequence of timer firings. -/
def timerFires (taskId : String) (sys : PollSystem) (rs : List PollOutcome) : PollSystem :=
  rs.foldl (timerFire taskId) sys

/-- The `useEffect` cleanup: `clearInterval(interval)` unconditionally
(run on unmount or when `taskId` changes). -/
def cleanup (sys : PollSystem) : PollSystem :=
  { sys with active := false }

/-- An inactive system is unchanged by any sequence of timer firings. -/
theorem timerFires_inactive (taskId : String) (sys : PollSystem)
    (h : sys.active = false) (rs : List PollOutcome) :
    timerFires taskId sys rs = sys := by
  induction rs with
  | nil => rfl
  | cons r rs ih =>
    have hfire : timerFire taskId sys r = sys := by
      simp [timerFire, h]
    simp [timerFires, List.foldl] at ih ⊢
    rw [hfire]
    exact ih

/-- A `jsOrS` fallback with a non-empty default is never empty. -/
theorem jsOrS_ne_empty (a : Option String) (b : String) (hb : b ≠ "") :
    jsOrS a b ≠ "" := by
  cases a with
  | none => exact hb
  | some s =>
    by_cases h : s = ""
    · simp [jsOrS, h]
      exact hb
    · simp [jsOrS, h]

/-- The poll `catch` message is never empty: the fallback chain ends in
the non-empty default text. -/
theorem pollCatchMsg_ne_empty (response : Option ErrResponse) (message : String) :
    pollCatchMsg response message ≠ "" := by
  cases response with
  | none =>
    exact jsOrS_ne_empty (some message) statusCheckFailedMsg (by decide)
  | some r =>
    exact jsOrS_ne_empty r.detail _ (jsOrS_ne_empty (some message) statusCheckFailedMsg (by decide))

/-- A concrete state: a 100-byte file is selected, the name is empty,
nothing is in flight. -/
def emptyNameState : FormState :=
  { initState with file := some { size := 100 } }

/-- A concrete state whose selected file exceeds the 15 GiB bound. -/
def oversizeState : FormState :=
  { initState with file := some { size := 15 * 1024 * 1024 * 1024 + 1 }, name := "v" }

/-- A concrete state with a valid file while an upload is outstanding. -/
def busyState : FormState :=
  { initState with file := some { size := 100 }, name := "v", uploadInProgress := true }

/-- C1 counterexample: with a valid 100-byte file selected and an empty
display name, `handleUpload` does NOT reject locally: `uploadVideo` is
invoked (a network call is made) and no error is surfaced. -/
theorem C1_empty_name_not_rejected_in_handler :
    emptyNameState.name = "" ∧
    (handleUpload emptyNameState (.ok "abc")).2 = true ∧
    (handleUpload emptyNameState (.ok "abc")).1.error = "" := by
  refine ⟨rfl, rfl, rfl⟩

/-- C1 (amended): an empty display name never surfaces an error inside
`handleUpload`; instead the submit button is disabled whenever the name
is empty, so the form-level guard prevents the submission.  A missing
file and an oversized payload are, as stated, rejected inside
`handleUpload` with an immediate error and no network call. -/
theorem C1_submission_guards (s : FormState) (o : UploadOutcome) :
    (s.name = "" → submitDisabled s = true) ∧
    (s.file = none → handleUpload s o = ({ s with error := pleaseSelectFileMsg }, false)) ∧
    (∀ f, s.file = some f → f.size > 15 * 1024 * 1024 * 1024 →
      handleUpload s o = ({ s with error := fileTooLargeMsg }, false)) := by
  refine ⟨?_, ?_, ?_⟩
  · intro h
    simp [submitDisabled, h]
  · intro h
    simp [handleUpload, h]
  · intro f hf hsz
    simp [handleUpload, hf, hsz]

/-- C1 witness: the amended guards evaluated at concrete states (no file
and empty name; oversized file). -/
theorem C1_submission_guards_witness :
    (submitDisabled initState = true ∧
      handleUpload initState (.ok "x") = ({ initState with error := pleaseSelectFileMsg }, false)) ∧
    handleUpload oversizeState (.ok "x") = ({ oversizeState with error := fileTooLargeMsg }, false) :=
  ⟨⟨(C1_submission_guards initState (.ok "x")).1 rfl,
    (C1_submission_guards initState (.ok "x")).2.1 rfl⟩,
   (C1_submission_guards oversizeState (.ok "x")).2.2
     { size := 15 * 1024 * 1024 * 1024 + 1 } rfl (by decide)⟩

/-- C2: while `uploadInProgress` is set, `handleUpload` never invokes
`uploadVideo` (at most one upload in flight), and whenever a valid file
is selected the attempt is rejected with exactly the busy warning. -/
theorem C2_busy_rejected (s : FormState) (o : UploadOutcome)
    (h : s.uploadInProgress = true) :
    (handleUpload s o).2 = false ∧
    (∀ f, s.file = some f → f.size ≤ 15 * 1024 * 1024 * 1024 →
      handleUpload s o = ({ s with uploadWarning := uploadBusyMsg }, false)) := by
  constructor
  · match hf : s.file with
    | none => simp [handleUpload, hf]
    | some f =>
      by_cases hsz : f.size > 15 * 1024 * 1024 * 1024
      · simp [handleUpload, hf, hsz]
      · simp [handleUpload, hf, hsz, h]
  · intro f hf hsz
    have hgt : ¬ f.size > 15 * 1024 * 1024 * 1024 := Nat.not_lt.mpr hsz
    simp [handleUpload, hf, hgt, h]

/-- C2 witness: the busy guard evaluated at a concrete busy state with a
valid file. -/
theorem C2_busy_rejected_witness :
    (handleUpload busyState (.ok "x")).2 = false ∧
    handleUpload busyState (.ok "x") = ({ busyState with uploadWarning := uploadBusyMsg }, false) :=
  ⟨(C2_busy_rejected busyState (.ok "x") rfl).1,
   (C2_busy_rejected busyState (.ok "x") rfl).2 { size := 100 } rfl (by decide)⟩

/-- C3: a payload larger than 15 x 1024^3 bytes is rejected locally with
the size error and `uploadVideo` is never invoked. -/
theorem C3_oversize_rejected (s : FormState) (o : UploadOutcome) (f : FileDesc)
    (hf : s.file = some f) (hsz : f.size > 15 * 1024 * 1024 * 1024) :
    handleUpload s o = ({ s with error := fileTooLargeMsg }, false) := by
  simp [handleUpload, hf, hsz]

/-- C3 witness: the size rejection evaluated at a concrete oversized
payload of 15 x 1024^3 + 1 bytes. -/
theorem C3_oversize_rejected_witness :
    handleUpload oversizeState (.ok "x") = ({ oversizeState with error := fileTooLargeMsg }, false) :=
  C3_oversize_rejected oversizeState (.ok "x") { size := 15 * 1024 * 1024 * 1024 + 1 } rfl (by decide)

/-- C4: after the `useEffect` cleanup runs (component teardown or task
identifier change), the system equals the cleaned-up system no matter
how often the old timer would have fired, and in particular no further
status query is issued against the old identifier. -/
theorem C4_cleanup_stops_polling (taskId : String) (sys : PollSystem)
    (rs : List PollOutcome) :
    timerFires taskId (cleanup sys) rs = cleanup sys ∧
    (timerFires taskId (cleanup sys) rs).queried = sys.queried := by
  have h := timerFires_inactive taskId (cleanup sys) rfl rs
  exact ⟨h, by rw [h]; rfl⟩

/-- A concrete active poll system with the busy flag set, as after a
successful upload of task "abc123". -/
def activeSys : PollSystem :=
  { active := true, queried := [],
    form := { initState with taskId := "abc123", uploadInProgress := true } }

/-- C5: on a poll response with status "completed", the interval is
cleared (polling stops), the busy flag goes from set to cleared, no
error is surfaced, and every later firing of the timer leaves the
system unchanged — so the flag clears exactly once. -/
theorem C5_completed_stops (taskId : String) (sys : PollSystem) (resp : TaskStatus)
    (ha : sys.active = true) (_hb : sys.form.uploadInProgress = true)
    (hs : resp.status = some "completed") :
    (timerFire taskId sys (.ok resp)).active = false ∧
    (timerFire taskId sys (.ok resp)).form.uploadInProgress = false ∧
    (timerFire taskId sys (.ok resp)).form.error = sys.form.error ∧
    (∀ rs, timerFires taskId (timerFire taskId sys (.ok resp)) rs = timerFire taskId sys (.ok resp)) := by
  have step : timerFire taskId sys (.ok resp) =
      { active := false, queried := sys.queried ++ [taskId], form := { sys.form with progress := jsOrN resp.progress 0, statusText := jsOrS resp.current_operation "", uploadInProgress := false } } := by
    simp [timerFire, ha, pollBody, hs]
  refine ⟨by rw [step], by rw [step], by rw [step], ?_⟩
  intro rs
  exact timerFires_inactive taskId _ (by rw [step]) rs

/-- C5 witness: a concrete "completed" response against the active busy
system. -/
theorem C5_completed_stops_witness :
    (timerFire "abc123" activeSys (.ok ⟨some "completed", some 100, none, none⟩)).active = false ∧
    (timerFire "abc123" activeSys (.ok ⟨some "completed", some 100, none, none⟩)).form.uploadInProgress = false ∧
    (timerFire "abc123" activeSys (.ok ⟨some "completed", some 100, none, none⟩)).form.error = activeSys.form.error ∧
    (∀ rs, timerFires "abc123" (timerFire "abc123" activeSys (.ok ⟨some "completed", some 100, none, none⟩)) rs =
      timerFire "abc123" activeSys (.ok ⟨some "completed", some 100, none, none⟩)) :=
  C5_completed_stops "abc123" activeSys ⟨some "completed", some 100, none, none⟩ rfl rfl rfl

/-- C6: on a poll response with status "failed" carrying a server error
text, polling stops, the busy flag clears, and the surfaced message
contains the server-supplied text as a substring. -/
theorem C6_failed_surfaces_error (taskId : String) (sys : PollSystem)
    (resp : TaskStatus) (e : String)
    (ha : sys.active = true) (hs : resp.status = some "failed")
    (he : resp.error = some e) :
    (timerFire taskId sys (.ok resp)).active = false ∧
    (timerFire taskId sys (.ok resp)).form.uploadInProgress = false ∧
    (∃ a b, (timerFire taskId sys (.ok resp)).form.error = a ++ e ++ b) := by
  have step : timerFire taskId sys (.ok resp) =
      { active := false, queried := sys.queried ++ [taskId], form := { sys.form with progress := jsOrN resp.progress 0, statusText := jsOrS resp.current_operation "", uploadInProgress := false, error := processingFailedMsg ++ ": " ++ jsOrS resp.error "" } } := by
    simp [timerFire, ha, pollBody, hs]
  refine ⟨by rw [step], by rw [step], ?_⟩
  rw [step]
  by_cases h : e = ""
  · exact ⟨processingFailedMsg ++ ": " ++ jsOrS resp.error "", "", by simp [h]⟩
  · exact ⟨processingFailedMsg ++ ": ", "", by simp [he, jsOrS, h]⟩

/-- C6 witness: the concrete response with error "disk full" against the
active busy system. -/
theorem C6_failed_surfaces_error_witness :
    (timerFire "abc123" activeSys (.ok ⟨some "failed", none, none, some "disk full"⟩)).active = false ∧
    (timerFire "abc123" activeSys (.ok ⟨some "failed", none, none, some "disk full"⟩)).form.uploadInProgress = false ∧
    (∃ a b, (timerFire "abc123" activeSys (.ok ⟨some "failed", none, none, some "disk full"⟩)).form.error = a ++ "disk full" ++ b) :=
  C6_failed_surfaces_error "abc123" activeSys ⟨some "failed", none, none, some "disk full"⟩ "disk full" rfl rfl rfl

/-- C7: on any failure of the status query (thrown by `getTaskStatus`),
polling stops, the busy flag clears, a non-empty error message is
surfaced, and no automatic retry occurs: every later firing of the
timer leaves the system unchanged. -/
theorem C7_poll_error_stops (taskId : String) (sys : PollSystem)
    (response : Option ErrResponse) (message : String)
    (ha : sys.active = true) :
    (timerFire taskId sys (.err response message)).active = false ∧
    (timerFire taskId sys (.err response message)).form.uploadInProgress = false ∧
    (timerFire taskId sys (.err response message)).form.error ≠ "" ∧
    (∀ rs, timerFires taskId (timerFire taskId sys (.err response message)) rs =
      timerFire taskId sys (.err response message)) := by
  have step : timerFire taskId sys (.err response message) =
      { active := false, queried := sys.queried ++ [taskId], form := { sys.form with uploadInProgress := false, error := pollCatchMsg response message } } := by
    simp [timerFire, ha, pollBody]
  refine ⟨by rw [step], by rw [step], ?_, ?_⟩
  · rw [step]
    exact pollCatchMsg_ne_empty response message
  · intro rs
    exact timerFires_inactive taskId _ (by rw [step]) rs

/-- C7 witness: a concrete network failure (no HTTP response, message
"Network Error") against the active busy system. -/
theorem C7_poll_error_stops_witness :
    (timerFire "abc123" activeSys (.err none "Network Error")).active = false ∧
    (timerFire "abc123" activeSys (.err none "Network Error")).form.uploadInProgress = false ∧
    (timerFire "abc123" activeSys (.err none "Network Error")).form.error ≠ "" ∧
    (∀ rs, timerFires "abc123" (timerFire "abc123" activeSys (.err none "Network Error")) rs =
      timerFire "abc123" activeSys (.err none "Network Error")) :=
  C7_poll_error_stops "abc123" activeSys none "Network Error" rfl

/-- C8: an upload failure whose HTTP status is 507 surfaces exactly the
fixed storage-exhaustion message, whatever the `detail` field or the
transport message say; the busy flag is cleared so a retry is possible. -/
theorem C8_status_507_fixed_message (s : FormState) (f : FileDesc)
    (r : ErrResponse) (message : String)
    (hf : s.file = some f) (hsz : f.size ≤ 15 * 1024 * 1024 * 1024)
    (hb : s.uploadInProgress = false) (h507 : r.status = 507) :
    (handleUpload s (.err (some r) message)).1.error = noSpaceLeftMsg ∧
    (handleUpload s (.err (some r) message)).1.uploadInProgress = false := by
  have hgt : ¬ f.size > 15 * 1024 * 1024 * 1024 := Nat.not_lt.mpr hsz
  constructor
  · simp [handleUpload, hf, hgt, hb, uploadCatchMsg, h507]
  · simp [handleUpload, hf, hgt, hb]

/-- C8 witness: a concrete 507 response whose body carries an unrelated
`detail` text. -/
theorem C8_status_507_fixed_message_witness :
    (handleUpload { initState with file := some { size := 100 }, name := "v" }
      (.err (some { status := 507, detail := some "ignored detail" }) "Request failed")).1.error = noSpaceLeftMsg ∧
    (handleUpload { initState with file := some { size := 100 }, name := "v" }
      (.err (some { status := 507, detail := some "ignored detail" }) "Request failed")).1.uploadInProgress = false :=
  C8_status_507_fixed_message { initState with file := some { size := 100 }, name := "v" }
    { size := 100 } { status := 507, detail := some "ignored detail" } "Request failed"
    rfl (by decide) rfl rfl

/-- C9: any poll response whose status is neither "completed" nor
"failed" (unknown or absent values included) is treated as still in
progress: progress and the operation label are updated, the timer stays
installed, the busy flag is unchanged and no error is surfaced. -/
theorem C9_nonterminal_continues (taskId : String) (sys : PollSystem)
    (resp : TaskStatus)
    (ha : sys.active = true)
    (h1 : resp.status ≠ some "completed") (h2 : resp.status ≠ some "failed") :
    (timerFire taskId sys (.ok resp)).active = true ∧
    (timerFire taskId sys (.ok resp)).form.progress = jsOrN resp.progress 0 ∧
    (timerFire taskId sys (.ok resp)).form.statusText = jsOrS resp.current_operation "" ∧
    (timerFire taskId sys (.ok resp)).form.uploadInProgress = sys.form.uploadInProgress ∧
    (timerFire taskId sys (.ok resp)).form.error = sys.form.error := by
  have step : timerFire taskId sys (.ok resp) =
      { active := true, queried := sys.queried ++ [taskId], form := { sys.form with progress := jsOrN resp.progress 0, statusText := jsOrS resp.current_operation "" } } := by
    simp [timerFire, ha, pollBody, h1, h2]
  exact ⟨by rw [step], by rw [step], by rw [step], by rw [step], by rw [step]⟩

/-- C9 witness: a concrete response with the unknown status "transcoding"
against the active busy system. -/
theorem C9_nonterminal_continues_witness :
    (timerFire "abc123" activeSys (.ok ⟨some "transcoding", some 40, some "pass 1", none⟩)).active = true ∧
    (timerFire "abc123" activeSys (.ok ⟨some "transcoding", some 40, some "pass 1", none⟩)).form.progress = jsOrN (some 40) 0 ∧
    (timerFire "abc123" activeSys (.ok ⟨some "transcoding", some 40, some "pass 1", none⟩)).form.statusText = jsOrS (some "pass 1") "" ∧
    (timerFire "abc123" activeSys (.ok ⟨some "transcoding", some 40, some "pass 1", none⟩)).form.uploadInProgress = activeSys.form.uploadInProgress ∧
    (timerFire "abc123" activeSys (.ok ⟨some "transcoding", some 40, some "pass 1", none⟩)).form.error = activeSys.form.error :=
  C9_nonterminal_continues "abc123" activeSys ⟨some "transcoding", some 40, some "pass 1", none⟩ rfl (by decide) (by decide)

/-- C10: a successfully decoded poll response lacking the `progress` and
`current_operation` fields is not a decode failure: for a non-terminal
status polling continues, the displayed progress defaults to 0, the
operation label defaults to the empty string, and no error is surfaced. -/
theorem C10_missing_fields_default (taskId : String) (sys : PollSystem)
    (resp : TaskStatus)
    (ha : sys.active = true)
    (hp : resp.progress = none) (hc : resp.current_operation = none)
    (h1 : resp.status ≠ some "completed") (h2 : resp.status ≠ some "failed") :
    (timerFire taskId sys (.ok resp)).active = true ∧
    (timerFire taskId sys (.ok resp)).form.progress = 0 ∧
    (timerFire taskId sys (.ok resp)).form.statusText = "" ∧
    (timerFire taskId sys (.ok resp)).form.error = sys.form.error := by
  have step : timerFire taskId sys (.ok resp) =
      { active := true, queried := sys.queried ++ [taskId], form := { sys.form with progress := 0, statusText := "" } } := by
    simp [timerFire, ha, pollBody, h1, h2, hp, hc, jsOrN, jsOrS]
  exact ⟨by rw [step], by rw [step], by rw [step], by rw [step]⟩

/-- C10 witness: a concrete response carrying only a status field. -/
theorem C10_missing_fields_default_witness :
    (timerFire "abc123" activeSys (.ok ⟨some "processing", none, none, none⟩)).active = true ∧
    (timerFire "abc123" activeSys (.ok ⟨some "processing", none, none, none⟩)).form.progress = 0 ∧
    (timerFire "abc123" activeSys (.ok ⟨some "processing", none, none, none⟩)).form.statusText = "" ∧
    (timerFire "abc123" activeSys (.ok ⟨some "processing", none, none, none⟩)).form.error = activeSys.form.error :=
  C10_missing_fields_default "abc123" activeSys ⟨some "processing", none, none, none⟩ rfl rfl rfl (by decide) (by decide)

end VideoUploadForm
